import Mathlib

/-!
Shallow embedding of the decision logic of `src/saffron_dashboard.py`
(saffron greenhouse dashboard): the crop-health classifier
`classify_crop_health`, the column-defaulting loop of the data loader,
and the soil-details table construction, together with theorems about
the spec's claims on them.

Sensor values are modelled as exact rationals (`ℚ`); the Python code
compares floats with the same ordering on the values that appear here.
-/

/-- Growth stages as they appear in the data's `stage` column. -/
inductive GrowthStage where
  | Dormancy
  | GrowthStimulation
  | VegetativeGrowth
  | Flowering
  | CormMultiplication
  | DormancyPreparation
  | Unknown
  deriving DecidableEq, Repr

/-- One sensor reading (one row of the dataframe after loading):
`st` is soil temperature, `sh` soil humidity, `sc` soil conductivity. -/
structure Reading where
  temperature : ℚ
  humidity : ℚ
  ph : ℚ
  n : ℚ
  p : ℚ
  k : ℚ
  st : ℚ
  sh : ℚ
  sc : ℚ
  stage : GrowthStage
  deriving DecidableEq, Repr

/-- The `IDEAL` threshold dictionary of `saffron_dashboard.py` (lines 55-62). -/
structure IdealConfig where
  ph_min : ℚ
  ph_max : ℚ
  temperature_min : ℚ
  temperature_max : ℚ
  humidity_min : ℚ
  humidity_max : ℚ
  n_min : ℚ
  n_max : ℚ
  p_min : ℚ
  p_max : ℚ
  k_min : ℚ
  k_max : ℚ
  deriving DecidableEq, Repr

/-- The concrete `IDEAL` values of the source. -/
def IDEAL : IdealConfig :=
  { ph_min := 6, ph_max := 8
    temperature_min := 15, temperature_max := 25
    humidity_min := 40, humidity_max := 60
    n_min := 20, n_max := 60
    p_min := 60, p_max := 80
    k_min := 40, k_max := 60 }

/-- `classify_crop_health` (lines 64-78): a chain of range checks on
ph, temperature, humidity, n, p, k; the growth stage and the soil
sensors (`st`, `sh`, `sc`) are never consulted. -/
def classify_crop_health (row : Reading) : String :=
  if ¬ (IDEAL.ph_min ≤ row.ph ∧ row.ph ≤ IDEAL.ph_max) then
    "At Risk"
  else if ¬ (IDEAL.temperature_min ≤ row.temperature ∧ row.temperature ≤ IDEAL.temperature_max) then
    "Needs Attention"
  else if ¬ (IDEAL.humidity_min ≤ row.humidity ∧ row.humidity ≤ IDEAL.humidity_max) then
    "Needs Attention"
  else if row.n < IDEAL.n_min then
    "Needs Attention"
  else if row.p < IDEAL.p_min then
    "Needs Attention"
  else if row.k < IDEAL.k_min then
    "Needs Attention"
  else
    "Healthy"

/-- A dataframe row before the column-defaulting loop: the columns
`sc, sh, st, n, p, k, ph` may be absent (lines 51-53 test
`if col not in df.columns`). -/
structure RawRow where
  temperature : ℚ
  humidity : ℚ
  sc : Option ℚ
  sh : Option ℚ
  st : Option ℚ
  n : Option ℚ
  p : Option ℚ
  k : Option ℚ
  ph : Option ℚ
  stage : GrowthStage
  deriving DecidableEq, Repr

/-- The column-defaulting loop (lines 51-53): any absent column among
`sc, sh, st, n, p, k, ph` is set to 0; no error is raised. -/
def fill_missing_columns (r : RawRow) : Reading :=
  { temperature := r.temperature
    humidity := r.humidity
    sc := r.sc.getD 0
    sh := r.sh.getD 0
    st := r.st.getD 0
    n := r.n.getD 0
    p := r.p.getD 0
    k := r.k.getD 0
    ph := r.ph.getD 0
    stage := r.stage }

/-- One row of the soil-details table (lines 278-284). -/
structure SoilRow where
  parameter : String
  current_value : ℚ
  recommendation : String
  status : String
  reason : String
  deriving DecidableEq, Repr

/-- Recommendation, status, reason for the `n` branch (lines 211-223). -/
def n_rec_status_reason (value : ℚ) : String × String × String :=
  if value < IDEAL.n_min then ("Add N to ≥20 kg/ha", "Bad", "Low nitrogen")
  else if value > IDEAL.n_max then ("Reduce N", "Check", "High nitrogen")
  else ("Optimal", "Good", "")

/-- Recommendation, status, reason for the `p` branch (lines 224-236). -/
def p_rec_status_reason (value : ℚ) : String × String × String :=
  if value < IDEAL.p_min then ("Add P to ≥60 kg/ha", "Bad", "Low phosphorus")
  else if value > IDEAL.p_max then ("Reduce P", "Check", "High phosphorus")
  else ("Optimal", "Good", "")

/-- Recommendation, status, reason for the `k` branch (lines 237-249). -/
def k_rec_status_reason (value : ℚ) : String × String × String :=
  if value < IDEAL.k_min then ("Add K to ≥40 kg/ha", "Bad", "Low potassium")
  else if value > IDEAL.k_max then ("Reduce K", "Check", "High potassium")
  else ("Optimal", "Good", "")

/-- Recommendation, status, reason for the `ph` branch (lines 250-258). -/
def ph_rec_status_reason (value : ℚ) : String × String × String :=
  if ¬ (IDEAL.ph_min ≤ value ∧ value ≤ IDEAL.ph_max) then
    ("Adjust to 6.0–8.0", "Bad", "pH out of range")
  else ("Optimal", "Good", "")

/-- Recommendation, status, reason for the `st` branch (lines 259-267). -/
def st_rec_status_reason (value : ℚ) : String × String × String :=
  if ¬ (18 ≤ value ∧ value ≤ 22) then
    ("Adjust soil temp", "Check", "Soil temp out of range")
  else ("Optimal", "Good", "")

/-- Recommendation, status, reason for the `sh` branch (lines 268-276). -/
def sh_rec_status_reason (value : ℚ) : String × String × String :=
  if ¬ (IDEAL.humidity_min ≤ value ∧ value ≤ IDEAL.humidity_max) then
    ("Adjust soil humidity", "Check", "Soil humidity out of range")
  else ("Optimal", "Good", "")

/-- The fixed `soil_params` list (line 207). -/
def soil_params : List String := ["n", "p", "k", "st", "sh", "ph"]

/-- One iteration of the soil-table loop (lines 210-276): dispatch on
the parameter name, read that column's current value, and produce the
row; a name outside the six branches appends nothing. -/
def soil_row_for (row : Reading) (param : String) : Option SoilRow :=
  if param = "n" then
    let t := n_rec_status_reason row.n
    some { parameter := "n", current_value := row.n,
           recommendation := t.1, status := t.2.1, reason := t.2.2 }
  else if param = "p" then
    let t := p_rec_status_reason row.p
    some { parameter := "p", current_value := row.p,
           recommendation := t.1, status := t.2.1, reason := t.2.2 }
  else if param = "k" then
    let t := k_rec_status_reason row.k
    some { parameter := "k", current_value := row.k,
           recommendation := t.1, status := t.2.1, reason := t.2.2 }
  else if param = "ph" then
    let t := ph_rec_status_reason row.ph
    some { parameter := "ph", current_value := row.ph,
           recommendation := t.1, status := t.2.1, reason := t.2.2 }
  else if param = "st" then
    let t := st_rec_status_reason row.st
    some { parameter := "st", current_value := row.st,
           recommendation := t.1, status := t.2.1, reason := t.2.2 }
  else if param = "sh" then
    let t := sh_rec_status_reason row.sh
    some { parameter := "sh", current_value := row.sh,
           recommendation := t.1, status := t.2.1, reason := t.2.2 }
  else
    none

/-- The soil-details table (lines 206-284): the loop over `soil_params`
collecting one row per matched parameter. -/
def build_soil_table (row : Reading) : List SoilRow :=
  soil_params.filterMap (soil_row_for row)

/-! ### Shared concrete inputs and helper lemmas -/

/-- Example 1 of the spec: every parameter nominal, stage VegetativeGrowth. -/
def reading0 : Reading :=
  { temperature := 20, humidity := 50, ph := 7, n := 40, p := 70, k := 50,
    st := 20, sh := 50, sc := 0, stage := GrowthStage.VegetativeGrowth }

/-- A dataframe row whose `ph` column is absent, all present columns nominal. -/
def rawMissingPh : RawRow :=
  { temperature := 20, humidity := 50, sc := some 0, sh := some 50, st := some 20,
    n := some 40, p := some 70, k := some 50, ph := none,
    stage := GrowthStage.VegetativeGrowth }

/-- The nitrogen row the table produces for `reading0`. -/
def goodRow0 : SoilRow :=
  { parameter := "n", current_value := 40, recommendation := "Optimal",
    status := "Good", reason := "" }

lemma build_soil_table_eq (r : Reading) : build_soil_table r =
    [{ parameter := "n", current_value := r.n,
       recommendation := (n_rec_status_reason r.n).1,
       status := (n_rec_status_reason r.n).2.1,
       reason := (n_rec_status_reason r.n).2.2 },
     { parameter := "p", current_value := r.p,
       recommendation := (p_rec_status_reason r.p).1,
       status := (p_rec_status_reason r.p).2.1,
       reason := (p_rec_status_reason r.p).2.2 },
     { parameter := "k", current_value := r.k,
       recommendation := (k_rec_status_reason r.k).1,
       status := (k_rec_status_reason r.k).2.1,
       reason := (k_rec_status_reason r.k).2.2 },
     { parameter := "st", current_value := r.st,
       recommendation := (st_rec_status_reason r.st).1,
       status := (st_rec_status_reason r.st).2.1,
       reason := (st_rec_status_reason r.st).2.2 },
     { parameter := "sh", current_value := r.sh,
       recommendation := (sh_rec_status_reason r.sh).1,
       status := (sh_rec_status_reason r.sh).2.1,
       reason := (sh_rec_status_reason r.sh).2.2 },
     { parameter := "ph", current_value := r.ph,
       recommendation := (ph_rec_status_reason r.ph).1,
       status := (ph_rec_status_reason r.ph).2.1,
       reason := (ph_rec_status_reason r.ph).2.2 }] := rfl

lemma n_rsr_good (v : ℚ) (h1 : IDEAL.n_min ≤ v) (h2 : v ≤ IDEAL.n_max) :
    n_rec_status_reason v = ("Optimal", "Good", "") := by
  unfold n_rec_status_reason
  rw [if_neg (not_lt.2 h1), if_neg (not_lt.2 h2)]

lemma p_rsr_good (v : ℚ) (h1 : IDEAL.p_min ≤ v) (h2 : v ≤ IDEAL.p_max) :
    p_rec_status_reason v = ("Optimal", "Good", "") := by
  unfold p_rec_status_reason
  rw [if_neg (not_lt.2 h1), if_neg (not_lt.2 h2)]

lemma k_rsr_good (v : ℚ) (h1 : IDEAL.k_min ≤ v) (h2 : v ≤ IDEAL.k_max) :
    k_rec_status_reason v = ("Optimal", "Good", "") := by
  unfold k_rec_status_reason
  rw [if_neg (not_lt.2 h1), if_neg (not_lt.2 h2)]

lemma ph_rsr_good (v : ℚ) (h1 : IDEAL.ph_min ≤ v) (h2 : v ≤ IDEAL.ph_max) :
    ph_rec_status_reason v = ("Optimal", "Good", "") := by
  unfold ph_rec_status_reason
  rw [if_neg (not_not_intro ⟨h1, h2⟩)]

lemma st_rsr_good (v : ℚ) (h1 : 18 ≤ v) (h2 : v ≤ 22) :
    st_rec_status_reason v = ("Optimal", "Good", "") := by
  unfold st_rec_status_reason
  rw [if_neg (not_not_intro ⟨h1, h2⟩)]

lemma sh_rsr_good (v : ℚ) (h1 : IDEAL.humidity_min ≤ v) (h2 : v ≤ IDEAL.humidity_max) :
    sh_rec_status_reason v = ("Optimal", "Good", "") := by
  unfold sh_rec_status_reason
  rw [if_neg (not_not_intro ⟨h1, h2⟩)]

lemma n_rsr_prop (v : ℚ) :
    ((n_rec_status_reason v).2.2 = "" ↔ (n_rec_status_reason v).2.1 = "Good") ∧
    ((n_rec_status_reason v).2.1 = "Good" → (n_rec_status_reason v).1 = "Optimal") := by
  unfold n_rec_status_reason
  split_ifs <;> exact ⟨by decide, by decide⟩

lemma p_rsr_prop (v : ℚ) :
    ((p_rec_status_reason v).2.2 = "" ↔ (p_rec_status_reason v).2.1 = "Good") ∧
    ((p_rec_status_reason v).2.1 = "Good" → (p_rec_status_reason v).1 = "Optimal") := by
  unfold p_rec_status_reason
  split_ifs <;> exact ⟨by decide, by decide⟩

lemma k_rsr_prop (v : ℚ) :
    ((k_rec_status_reason v).2.2 = "" ↔ (k_rec_status_reason v).2.1 = "Good") ∧
    ((k_rec_status_reason v).2.1 = "Good" → (k_rec_status_reason v).1 = "Optimal") := by
  unfold k_rec_status_reason
  split_ifs <;> exact ⟨by decide, by decide⟩

lemma ph_rsr_prop (v : ℚ) :
    ((ph_rec_status_reason v).2.2 = "" ↔ (ph_rec_status_reason v).2.1 = "Good") ∧
    ((ph_rec_status_reason v).2.1 = "Good" → (ph_rec_status_reason v).1 = "Optimal") := by
  unfold ph_rec_status_reason
  split_ifs <;> exact ⟨by decide, by decide⟩

lemma st_rsr_prop (v : ℚ) :
    ((st_rec_status_reason v).2.2 = "" ↔ (st_rec_status_reason v).2.1 = "Good") ∧
    ((st_rec_status_reason v).2.1 = "Good" → (st_rec_status_reason v).1 = "Optimal") := by
  unfold st_rec_status_reason
  split_ifs <;> exact ⟨by decide, by decide⟩

lemma sh_rsr_prop (v : ℚ) :
    ((sh_rec_status_reason v).2.2 = "" ↔ (sh_rec_status_reason v).2.1 = "Good") ∧
    ((sh_rec_status_reason v).2.1 = "Good" → (sh_rec_status_reason v).1 = "Optimal") := by
  unfold sh_rec_status_reason
  split_ifs <;> exact ⟨by decide, by decide⟩

lemma classify_update_n (r : Reading) (q : ℚ)
    (hq : ¬ q < IDEAL.n_min) (hn : ¬ r.n < IDEAL.n_min) :
    classify_crop_health { r with n := q } = classify_crop_health r := by
  obtain ⟨rt, rhu, rph, rn, rp, rk, rst, rsh, rsc, rstg⟩ := r
  unfold classify_crop_health
  dsimp only at *
  rw [if_neg hq, if_neg hn]

lemma classify_update_p (r : Reading) (q : ℚ)
    (hq : ¬ q < IDEAL.p_min) (hp : ¬ r.p < IDEAL.p_min) :
    classify_crop_health { r with p := q } = classify_crop_health r := by
  obtain ⟨rt, rhu, rph, rn, rp, rk, rst, rsh, rsc, rstg⟩ := r
  unfold classify_crop_health
  dsimp only at *
  rw [if_neg hq, if_neg hp]

lemma classify_update_k (r : Reading) (q : ℚ)
    (hq : ¬ q < IDEAL.k_min) (hk : ¬ r.k < IDEAL.k_min) :
    classify_crop_health { r with k := q } = classify_crop_health r := by
  obtain ⟨rt, rhu, rph, rn, rp, rk, rst, rsh, rsc, rstg⟩ := r
  unfold classify_crop_health
  dsimp only at *
  rw [if_neg hq, if_neg hk]

lemma classify_else (r : Reading)
    (hph : IDEAL.ph_min ≤ r.ph ∧ r.ph ≤ IDEAL.ph_max)
    (ht : IDEAL.temperature_min ≤ r.temperature ∧ r.temperature ≤ IDEAL.temperature_max)
    (hh : IDEAL.humidity_min ≤ r.humidity ∧ r.humidity ≤ IDEAL.humidity_max) :
    classify_crop_health r =
      if r.n < IDEAL.n_min then "Needs Attention"
      else if r.p < IDEAL.p_min then "Needs Attention"
      else if r.k < IDEAL.k_min then "Needs Attention"
      else "Healthy" := by
  unfold classify_crop_health
  rw [if_neg (not_not_intro hph), if_neg (not_not_intro ht), if_neg (not_not_intro hh)]

/-! ### Claims -/

/-- C1, counterexample: a reading during `Dormancy` with `ph = 2.0` is
classified `"At Risk"`, not `"Healthy"`: the code has no dormancy
override. -/
theorem C1_counterexample :
    ({ reading0 with stage := GrowthStage.Dormancy, ph := 2 } : Reading).stage
      = GrowthStage.Dormancy ∧
    classify_crop_health { reading0 with stage := GrowthStage.Dormancy, ph := 2 }
      = "At Risk" ∧
    classify_crop_health { reading0 with stage := GrowthStage.Dormancy, ph := 2 }
      ≠ "Healthy" :=
  ⟨rfl, by decide, by decide⟩

/-- C1, amended: the health classification never consults the growth
stage; replacing the stage of any reading (in particular by `Dormancy`)
leaves the verdict unchanged, so during `Dormancy` the usual threshold
checks apply just as in every other stage. -/
theorem C1_stage_never_consulted (r : Reading) (s : GrowthStage) :
    classify_crop_health { r with stage := s } = classify_crop_health r := rfl

/-- C2, counterexample: a dataframe row whose `ph` column is absent is
not rejected: the loader silently sets `ph` to 0 and the reading is
classified normally (to `"At Risk"`, since 0 is out of range). -/
theorem C2_counterexample :
    rawMissingPh.ph = none ∧
    (fill_missing_columns rawMissingPh).ph = 0 ∧
    classify_crop_health (fill_missing_columns rawMissingPh) = "At Risk" :=
  ⟨rfl, rfl, by decide⟩

/-- C2, amended: a row missing the `ph` column (likewise any column of
`sc, sh, st, n, p, k, ph`) is silently defaulted to 0 by the loading
loop and then evaluated normally with no error; in particular every
such row is classified `"At Risk"` because the defaulted `ph = 0` is
out of range. -/
theorem C2_missing_ph_defaulted (raw : RawRow) (h : raw.ph = none) :
    (fill_missing_columns raw).ph = 0 ∧
    classify_crop_health (fill_missing_columns raw) = "At Risk" := by
  have hph : (fill_missing_columns raw).ph = 0 := by
    simp [fill_missing_columns, h]
  refine ⟨hph, ?_⟩
  have hc : ¬ (IDEAL.ph_min ≤ (0 : ℚ) ∧ (0 : ℚ) ≤ IDEAL.ph_max) := by decide
  unfold classify_crop_health
  rw [hph, if_pos hc]

/-- C2, witness: the amended theorem applied to the concrete row with
the `ph` column absent. -/
theorem C2_witness :
    (fill_missing_columns rawMissingPh).ph = 0 ∧
    classify_crop_health (fill_missing_columns rawMissingPh) = "At Risk" :=
  C2_missing_ph_defaulted rawMissingPh rfl

/-- C3, counterexample: with `soil_humidity = 25` (below 40) and every
other sensor nominal, the verdict is `"Healthy"` (not
`"Needs Attention"`) and the `sh` table row has status `"Check"` with
recommendation `"Adjust soil humidity"` — never `NeedsWater`, and no
milliliter volume is computed anywhere. -/
theorem C3_counterexample :
    classify_crop_health { reading0 with sh := 25 } = "Healthy" ∧
    classify_crop_health { reading0 with sh := 25 } ≠ "Needs Attention" ∧
    soil_row_for { reading0 with sh := 25 } "sh" =
      some { parameter := "sh", current_value := 25,
             recommendation := "Adjust soil humidity", status := "Check",
             reason := "Soil humidity out of range" } :=
  ⟨by decide, by decide, by decide⟩

/-- C3, amended: for every reading with soil humidity below the minimum
(40), the `sh` row of the soil table has status `"Check"` with
recommendation `"Adjust soil humidity"` and reason
`"Soil humidity out of range"` (no irrigation volume), and the soil
humidity value never influences the overall verdict. -/
theorem C3_low_soil_humidity (r : Reading) (h : r.sh < IDEAL.humidity_min) :
    soil_row_for r "sh" =
      some { parameter := "sh", current_value := r.sh,
             recommendation := "Adjust soil humidity", status := "Check",
             reason := "Soil humidity out of range" } ∧
    ∀ q : ℚ, classify_crop_health { r with sh := q } = classify_crop_health r := by
  have hsh : sh_rec_status_reason r.sh =
      ("Adjust soil humidity", "Check", "Soil humidity out of range") := by
    unfold sh_rec_status_reason
    rw [if_pos (fun hc => absurd hc.1 (not_le.2 h))]
  refine ⟨?_, fun q => rfl⟩
  have hstep : soil_row_for r "sh" =
      some { parameter := "sh", current_value := r.sh,
             recommendation := (sh_rec_status_reason r.sh).1,
             status := (sh_rec_status_reason r.sh).2.1,
             reason := (sh_rec_status_reason r.sh).2.2 } := rfl
  rw [hstep, hsh]

/-- C3, witness: the amended theorem applied at `soil_humidity = 25`. -/
theorem C3_witness :
    soil_row_for { reading0 with sh := 25 } "sh" =
      some { parameter := "sh", current_value := 25,
             recommendation := "Adjust soil humidity", status := "Check",
             reason := "Soil humidity out of range" } :=
  (C3_low_soil_humidity { reading0 with sh := 25 } (by decide)).1

/-- C4: for every reading outside `Dormancy` whose `ph` lies strictly
outside `[IDEAL.ph_min, IDEAL.ph_max] = [6.0, 8.0]`, the verdict is
`"At Risk"` and the `ph` row of the soil table has status `"Bad"` with
reason `"pH out of range"`. -/
theorem C4_ph_out_of_range (r : Reading) (_hs : r.stage ≠ GrowthStage.Dormancy)
    (hph : r.ph < IDEAL.ph_min ∨ IDEAL.ph_max < r.ph) :
    classify_crop_health r = "At Risk" ∧
    soil_row_for r "ph" =
      some { parameter := "ph", current_value := r.ph,
             recommendation := "Adjust to 6.0–8.0", status := "Bad",
             reason := "pH out of range" } := by
  have hc : ¬ (IDEAL.ph_min ≤ r.ph ∧ r.ph ≤ IDEAL.ph_max) := by
    rintro ⟨h1, h2⟩
    rcases hph with h | h
    · exact absurd h1 (not_le.2 h)
    · exact absurd h2 (not_le.2 h)
  constructor
  · unfold classify_crop_health
    rw [if_pos hc]
  · have hrec : ph_rec_status_reason r.ph =
        ("Adjust to 6.0–8.0", "Bad", "pH out of range") := by
      unfold ph_rec_status_reason
      rw [if_pos hc]
    have hstep : soil_row_for r "ph" =
        some { parameter := "ph", current_value := r.ph,
               recommendation := (ph_rec_status_reason r.ph).1,
               status := (ph_rec_status_reason r.ph).2.1,
               reason := (ph_rec_status_reason r.ph).2.2 } := rfl
    rw [hstep, hrec]

/-- C4, witness: Example 2 of the spec, `ph = 9.0` with all else
nominal and stage `VegetativeGrowth`. -/
theorem C4_witness :
    classify_crop_health { reading0 with ph := 9 } = "At Risk" ∧
    soil_row_for { reading0 with ph := 9 } "ph" =
      some { parameter := "ph", current_value := 9,
             recommendation := "Adjust to 6.0–8.0", status := "Bad",
             reason := "pH out of range" } :=
  C4_ph_out_of_range { reading0 with ph := 9 } (by decide) (Or.inr (by decide))

/-- C5: for every reading outside `Dormancy` with every parameter
strictly inside its ideal range, the verdict is `"Healthy"` and every
row of the soil table has status `"Good"`. -/
theorem C5_all_nominal_healthy (r : Reading) (_hs : r.stage ≠ GrowthStage.Dormancy)
    (ht1 : IDEAL.temperature_min < r.temperature) (ht2 : r.temperature < IDEAL.temperature_max)
    (hh1 : IDEAL.humidity_min < r.humidity) (hh2 : r.humidity < IDEAL.humidity_max)
    (hph1 : IDEAL.ph_min < r.ph) (hph2 : r.ph < IDEAL.ph_max)
    (hn1 : IDEAL.n_min < r.n) (hn2 : r.n < IDEAL.n_max)
    (hp1 : IDEAL.p_min < r.p) (hp2 : r.p < IDEAL.p_max)
    (hk1 : IDEAL.k_min < r.k) (hk2 : r.k < IDEAL.k_max)
    (hst1 : (18 : ℚ) < r.st) (hst2 : r.st < 22)
    (hsh1 : IDEAL.humidity_min < r.sh) (hsh2 : r.sh < IDEAL.humidity_max) :
    classify_crop_health r = "Healthy" ∧
    ∀ row ∈ build_soil_table r, row.status = "Good" := by
  constructor
  · unfold classify_crop_health
    rw [if_neg (not_not_intro ⟨hph1.le, hph2.le⟩),
        if_neg (not_not_intro ⟨ht1.le, ht2.le⟩),
        if_neg (not_not_intro ⟨hh1.le, hh2.le⟩),
        if_neg (not_lt.2 hn1.le), if_neg (not_lt.2 hp1.le), if_neg (not_lt.2 hk1.le)]
  · intro row hrow
    rw [build_soil_table_eq] at hrow
    simp only [List.mem_cons, List.not_mem_nil, or_false] at hrow
    rcases hrow with h | h | h | h | h | h <;> subst h
    · show (n_rec_status_reason r.n).2.1 = "Good"
      rw [n_rsr_good r.n hn1.le hn2.le]
    · show (p_rec_status_reason r.p).2.1 = "Good"
      rw [p_rsr_good r.p hp1.le hp2.le]
    · show (k_rec_status_reason r.k).2.1 = "Good"
      rw [k_rsr_good r.k hk1.le hk2.le]
    · show (st_rec_status_reason r.st).2.1 = "Good"
      rw [st_rsr_good r.st hst1.le hst2.le]
    · show (sh_rec_status_reason r.sh).2.1 = "Good"
      rw [sh_rsr_good r.sh hsh1.le hsh2.le]
    · show (ph_rec_status_reason r.ph).2.1 = "Good"
      rw [ph_rsr_good r.ph hph1.le hph2.le]

/-- C5, witness: Example 1 of the spec (`temperature=20, humidity=50,
ph=7.0, n=40, p=70, k=50, soil_temperature=20, soil_humidity=50`,
stage `VegetativeGrowth`). -/
theorem C5_witness :
    classify_crop_health reading0 = "Healthy" ∧
    ∀ row ∈ build_soil_table reading0, row.status = "Good" :=
  C5_all_nominal_healthy reading0 (by decide) (by decide) (by decide) (by decide)
    (by decide) (by decide) (by decide) (by decide) (by decide) (by decide)
    (by decide) (by decide) (by decide) (by decide) (by decide) (by decide)
    (by decide)

/-- C6, counterexample: with nitrogen below `n_min` (10 < 20) but `ph`
out of range (9.0), the verdict is `"At Risk"`, not
`"Needs Attention"`: low nitrogen forces `"Needs Attention"` only when
the earlier ph, temperature and humidity checks pass. -/
theorem C6_counterexample :
    ({ reading0 with n := 10, ph := 9 } : Reading).n < IDEAL.n_min ∧
    classify_crop_health { reading0 with n := 10, ph := 9 } = "At Risk" ∧
    classify_crop_health { reading0 with n := 10, ph := 9 } ≠ "Needs Attention" :=
  ⟨by decide, by decide, by decide⟩

/-- C6, amended: for every reading, nitrogen above `n_max = 60`
(likewise phosphorus above `p_max = 80`, potassium above `k_max = 60`)
yields only a `"Check"`-level soil-table row and never changes the
verdict (the verdict equals that of the same reading with the nutrient
set back to its minimum, an in-range value on the low side) — this
holds unconditionally; and provided ph, temperature and humidity are
within range, nitrogen below `n_min = 20` (likewise phosphorus below
`p_min = 60`, potassium below `k_min = 40`) makes the verdict
`"Needs Attention"`. -/
theorem C6_nutrient_rules (r : Reading) :
    (IDEAL.ph_min ≤ r.ph ∧ r.ph ≤ IDEAL.ph_max →
     IDEAL.temperature_min ≤ r.temperature ∧ r.temperature ≤ IDEAL.temperature_max →
     IDEAL.humidity_min ≤ r.humidity ∧ r.humidity ≤ IDEAL.humidity_max →
      (r.n < IDEAL.n_min → classify_crop_health r = "Needs Attention") ∧
      (r.p < IDEAL.p_min → classify_crop_health r = "Needs Attention") ∧
      (r.k < IDEAL.k_min → classify_crop_health r = "Needs Attention")) ∧
    (IDEAL.n_max < r.n →
      soil_row_for r "n" =
        some { parameter := "n", current_value := r.n,
               recommendation := "Reduce N", status := "Check",
               reason := "High nitrogen" } ∧
      classify_crop_health { r with n := IDEAL.n_min } = classify_crop_health r) ∧
    (IDEAL.p_max < r.p →
      soil_row_for r "p" =
        some { parameter := "p", current_value := r.p,
               recommendation := "Reduce P", status := "Check",
               reason := "High phosphorus" } ∧
      classify_crop_health { r with p := IDEAL.p_min } = classify_crop_health r) ∧
    (IDEAL.k_max < r.k →
      soil_row_for r "k" =
        some { parameter := "k", current_value := r.k,
               recommendation := "Reduce K", status := "Check",
               reason := "High potassium" } ∧
      classify_crop_health { r with k := IDEAL.k_min } = classify_crop_health r) := by
  refine ⟨?_, ?_, ?_, ?_⟩
  · intro hph ht hh
    refine ⟨?_, ?_, ?_⟩
    · intro h
      rw [classify_else r hph ht hh, if_pos h]
    · intro h
      rw [classify_else r hph ht hh]
      by_cases hn : r.n < IDEAL.n_min
      · rw [if_pos hn]
      · rw [if_neg hn, if_pos h]
    · intro h
      rw [classify_else r hph ht hh]
      by_cases hn : r.n < IDEAL.n_min
      · rw [if_pos hn]
      · rw [if_neg hn]
        by_cases hp : r.p < IDEAL.p_min
        · rw [if_pos hp]
        · rw [if_neg hp, if_pos h]
  · intro h
    have hnn : ¬ r.n < IDEAL.n_min := not_lt.2 (le_trans (by decide) h.le)
    refine ⟨?_, ?_⟩
    · have hrec : n_rec_status_reason r.n = ("Reduce N", "Check", "High nitrogen") := by
        unfold n_rec_status_reason
        rw [if_neg hnn, if_pos h]
      have hstep : soil_row_for r "n" =
          some { parameter := "n", current_value := r.n,
                 recommendation := (n_rec_status_reason r.n).1,
                 status := (n_rec_status_reason r.n).2.1,
                 reason := (n_rec_status_reason r.n).2.2 } := rfl
      rw [hstep, hrec]
    · exact classify_update_n r IDEAL.n_min (lt_irrefl IDEAL.n_min) hnn
  · intro h
    have hpp : ¬ r.p < IDEAL.p_min := not_lt.2 (le_trans (by decide) h.le)
    refine ⟨?_, ?_⟩
    · have hrec : p_rec_status_reason r.p = ("Reduce P", "Check", "High phosphorus") := by
        unfold p_rec_status_reason
        rw [if_neg hpp, if_pos h]
      have hstep : soil_row_for r "p" =
          some { parameter := "p", current_value := r.p,
                 recommendation := (p_rec_status_reason r.p).1,
                 status := (p_rec_status_reason r.p).2.1,
                 reason := (p_rec_status_reason r.p).2.2 } := rfl
      rw [hstep, hrec]
    · exact classify_update_p r IDEAL.p_min (lt_irrefl IDEAL.p_min) hpp
  · intro h
    have hkk : ¬ r.k < IDEAL.k_min := not_lt.2 (le_trans (by decide) h.le)
    refine ⟨?_, ?_⟩
    · have hrec : k_rec_status_reason r.k = ("Reduce K", "Check", "High potassium") := by
        unfold k_rec_status_reason
        rw [if_neg hkk, if_pos h]
      have hstep : soil_row_for r "k" =
          some { parameter := "k", current_value := r.k,
                 recommendation := (k_rec_status_reason r.k).1,
                 status := (k_rec_status_reason r.k).2.1,
                 reason := (k_rec_status_reason r.k).2.2 } := rfl
      rw [hstep, hrec]
    · exact classify_update_k r IDEAL.k_min (lt_irrefl IDEAL.k_min) hkk

/-- C6, witness: at nitrogen `n = 10` below `n_min = 20` and
phosphorus `p = 100` above `p_max = 80` with ph, temperature and
humidity nominal, the low-side part gives `"Needs Attention"` and the
high-side part gives the `"Check"` phosphorus row. -/
theorem C6_witness :
    classify_crop_health { reading0 with n := 10, p := 100 } = "Needs Attention" ∧
    soil_row_for { reading0 with n := 10, p := 100 } "p" =
      some { parameter := "p", current_value := 100,
             recommendation := "Reduce P", status := "Check",
             reason := "High phosphorus" } :=
  ⟨((C6_nutrient_rules { reading0 with n := 10, p := 100 }).1
      (by decide) (by decide) (by decide)).1 (by decide),
   ((C6_nutrient_rules { reading0 with n := 10, p := 100 }).2.2.1 (by decide)).1⟩

/-- C7: for every reading, the soil table has exactly one row per
configured parameter and in the configured order: the parameters of
its rows are exactly the `soil_params` list
`["n", "p", "k", "st", "sh", "ph"]` (nitrogen, phosphorus, potassium,
soil temperature, soil humidity, ph) — no duplicates, none skipped. -/
theorem C7_fixed_order (r : Reading) :
    (build_soil_table r).map SoilRow.parameter = soil_params ∧
    soil_params = ["n", "p", "k", "st", "sh", "ph"] ∧
    soil_params.Nodup :=
  ⟨rfl, rfl, by decide⟩

/-- C8: the health classification and the soil-table construction are
deterministic pure functions: two calls on identical inputs give
identical outputs. -/
theorem C8_deterministic (r1 r2 : Reading) (h : r1 = r2) :
    classify_crop_health r1 = classify_crop_health r2 ∧
    build_soil_table r1 = build_soil_table r2 := by
  subst h
  exact ⟨rfl, rfl⟩

/-- C8, witness: determinism at the nominal reading. -/
theorem C8_witness :
    classify_crop_health reading0 = classify_crop_health reading0 ∧
    build_soil_table reading0 = build_soil_table reading0 :=
  C8_deterministic reading0 reading0 rfl

/-- C9: the verdict depends only on ph, temperature, humidity,
nitrogen, phosphorus and potassium: two readings agreeing on those six
fields get the same verdict, whatever their soil temperature, soil
humidity, soil conductivity or growth stage. -/
theorem C9_verdict_ignores_soil_and_stage (r1 r2 : Reading)
    (hph : r1.ph = r2.ph) (ht : r1.temperature = r2.temperature)
    (hh : r1.humidity = r2.humidity) (hn : r1.n = r2.n)
    (hp : r1.p = r2.p) (hk : r1.k = r2.k) :
    classify_crop_health r1 = classify_crop_health r2 := by
  unfold classify_crop_health
  rw [hph, ht, hh, hn, hp, hk]

/-- C9, witness: the nominal reading keeps its verdict when soil
temperature, soil humidity, soil conductivity and stage all change. -/
theorem C9_witness :
    classify_crop_health reading0 =
      classify_crop_health
        { reading0 with st := 100, sh := 5, sc := 3, stage := GrowthStage.Dormancy } :=
  C9_verdict_ignores_soil_and_stage reading0
    { reading0 with st := 100, sh := 5, sc := 3, stage := GrowthStage.Dormancy }
    rfl rfl rfl rfl rfl rfl

/-- C10: in every row of the soil table, the reason is the empty
string exactly when the status is `"Good"`, and every `"Good"` row has
recommendation `"Optimal"`. -/
theorem C10_reason_iff_good (r : Reading) (row : SoilRow)
    (hrow : row ∈ build_soil_table r) :
    (row.reason = "" ↔ row.status = "Good") ∧
    (row.status = "Good" → row.recommendation = "Optimal") := by
  rw [build_soil_table_eq] at hrow
  simp only [List.mem_cons, List.not_mem_nil, or_false] at hrow
  rcases hrow with h | h | h | h | h | h <;> subst h
  · exact n_rsr_prop r.n
  · exact p_rsr_prop r.p
  · exact k_rsr_prop r.k
  · exact st_rsr_prop r.st
  · exact sh_rsr_prop r.sh
  · exact ph_rsr_prop r.ph

/-- C10, witness: the nitrogen row of the nominal reading's table. -/
theorem C10_witness :
    goodRow0 ∈ build_soil_table reading0 ∧
    ((goodRow0.reason = "" ↔ goodRow0.status = "Good") ∧
     (goodRow0.status = "Good" → goodRow0.recommendation = "Optimal")) :=
  ⟨by decide, C10_reason_iff_good reading0 goodRow0 (by decide)⟩
